import Mathlib

/-!
Shallow embedding of `src/python/train_CNN_IMDB.py` (legalto/NLP-CNN):
data shuffling, model-variation dispatch, evaluation-time embedding lookup,
model-graph assembly, artifact naming and write ordering, and the
name-resolution behavior of the evaluation branch.
-/

namespace TrainCNNIMDB

/-- Numpy fancy indexing `arr[idx]`: selects `arr[i]` for each `i` in `idx`
(with default `d` standing in for the out-of-range case, which the script
never hits because `idx` is a permutation of the valid indices). -/
def fancyIndex (arr : List α) (d : α) (idx : List Nat) : List α :=
  idx.map (fun i => arr.getD i d)

/-- Helper for `np.argmax` over one row: index of the first maximum.
`i` is the index of the next element, `best` the best index so far,
`bestv` its value. -/
def argmaxAux : List Nat → Nat → Nat → Nat → Nat
  | [], _, best, _ => best
  | a :: rest, i, best, bestv =>
      if bestv < a then argmaxAux rest (i + 1) i a
      else argmaxAux rest (i + 1) best bestv

/-- `np.argmax` of a one-hot label row (line 148: `.argmax(axis=1)`). -/
def argmaxRow : List Nat → Nat
  | [] => 0
  | a :: rest => argmaxAux rest 1 0 a

/-- Line 147: `x_shuffled = x[shuffle_indices]`. -/
def x_shuffled (x : List α) (d : α) (idx : List Nat) : List α :=
  fancyIndex x d idx

/-- Line 148: `y_shuffled = y[shuffle_indices].argmax(axis=1)`. -/
def y_shuffled (y : List (List Nat)) (idx : List Nat) : List Nat :=
  (fancyIndex y [] idx).map argmaxRow

/-- Abstract model of the numpy global random state: `np.random.seed(2)`
(line 102) replaces whatever state the generator had with the state derived
from the constant 2. -/
def npRandomSeed (n : Nat) : Nat := n

/-- Lines 102 and 146: seed the generator with the constant 2, then draw
`shuffle_indices = np.random.permutation(np.arange(len(y)))`.  The generator
itself is opaque library code, modelled as a deterministic function `perm`
of the seeded state and the length; `s0` is the generator state the process
had before `np.random.seed(2)` ran. -/
def trainShuffleIndices (perm : Nat → Nat → List Nat) (_s0 : Nat)
    (y : List (List Nat)) : List Nat :=
  let st := npRandomSeed 2
  perm st y.length

/-- Lines 102, 146-148 as one step: seed, draw the permutation, apply it to
`x` and (argmax-collapsed) `y`. -/
def trainShuffle (perm : Nat → Nat → List Nat) (s0 : Nat)
    (x : List α) (d : α) (y : List (List Nat)) : List α × List Nat :=
  let shuffle_indices := trainShuffleIndices perm s0 y
  (x_shuffled x d shuffle_indices, y_shuffled y shuffle_indices)

/-- A word vector: one row of the word2vec matrix. -/
abbrev Vec := List Int

/-- Fancy indexing of the embedding matrix by a nested id array
(line 139: `embedding_weights[0][x]`): every token id in every sentence is
replaced by the corresponding matrix row. -/
def applyEmbedding (W : List Vec) (x : List (List Nat)) : List (List Vec) :=
  x.map (fun row => row.map (fun t => W.getD t []))

/-- The data the variation dispatch leaves in `x`: either the original
integer token-id sequences, or (for `CNN-static`) sequences of dense
vectors. -/
inductive XData where
  | ids (x : List (List Nat))
  | vecs (x : List (List Vec))
  deriving DecidableEq

/-- Result state after the variation dispatch: the `embedding_weights`
variable (`None` for `CNN-rand`; the singleton list returned by
`train_word2vec` otherwise) and the possibly rewritten `x`. -/
structure DispatchOut where
  embedding_weights : Option (List (List Vec))
  xdata : XData
  deriving DecidableEq

/-- Lines 136-143: the model-variation dispatch.  `W` stands for the matrix
inside the list returned by `train_word2vec` (so `embedding_weights[0] = W`);
the `else` branch raises `ValueError('Unknown model variation')`, modelled
as an error result. -/
def variationDispatch (mv : String) (W : List Vec) (x : List (List Nat)) :
    Except String DispatchOut :=
  if mv = "CNN-non-static" ∨ mv = "CNN-static" then
    let embedding_weights := [W]
    if mv = "CNN-static" then
      Except.ok ⟨some embedding_weights,
        XData.vecs (applyEmbedding (embedding_weights.getD 0 []) x)⟩
    else
      Except.ok ⟨some embedding_weights, XData.ids x⟩
  else if mv = "CNN-rand" then
    Except.ok ⟨none, XData.ids x⟩
  else
    Except.error "Unknown model variation"

/-- Lines 250-255: the evaluation-time lookup of one word in the loaded
word2vec model `eb`.  `eb` is the model's keyed access, `none` meaning a
`KeyError`; the bare `except:` catches the failed `eb[word]` and evaluates
`eb['<PAD/>']`, whose own failure would not be caught. -/
def evalLookup (eb : String → Option Vec) (word : String) : Except String Vec :=
  match eb word with
  | some v => Except.ok v
  | none =>
      match eb "<PAD/>" with
      | some v => Except.ok v
      | none => Except.error "KeyError"

/-- One layer of the convolutional graph subnet (lines 163-173). -/
inductive GLayer where
  | conv1D (nb_filter filter_length : Nat) (border_mode activation : String)
      (subsample_length : Nat)
  | maxPooling1D (pool_length : Nat)
  | flattenL
  deriving DecidableEq

/-- One branch of the graph (the loop body, lines 165-173): convolution with
relu activation, max pooling with window length 2, flatten. -/
def convBranch (num_filters fsz : Nat) : List GLayer :=
  [GLayer.conv1D num_filters fsz "valid" "relu" 1,
   GLayer.maxPooling1D 2, GLayer.flattenL]

/-- The `convs` list built by the loop over `filter_sizes` (lines 164-173). -/
def buildBranches (num_filters : Nat) (filter_sizes : List Nat) :
    List (List GLayer) :=
  filter_sizes.map (convBranch num_filters)

/-- The output node of the graph subnet: either the concatenation of all
branches or a single branch used directly. -/
inductive GraphOut where
  | merged (mode : String) (branches : List (List GLayer))
  | single (branch : List GLayer)
  deriving DecidableEq

/-- Lines 175-178: `out = Merge(mode='concat')(convs)` when more than one
filter size is configured, else `out = convs[0]` (whose Python `IndexError`
on an empty list is modelled as `none`). -/
def graphOutput (num_filters : Nat) (filter_sizes : List Nat) :
    Option GraphOut :=
  let convs := buildBranches num_filters filter_sizes
  if 1 < filter_sizes.length then some (GraphOut.merged "concat" convs)
  else convs.head?.map GraphOut.single

/-- One layer of the main sequential model (lines 183-193). -/
inductive MLayer where
  | embedding (input_dim output_dim input_length : Nat)
  | dropout (p : ℚ)
  | graphModel (g : GraphOut)
  | dense (units : Nat)
  | activation (name : String)
  deriving DecidableEq

/-- Lines 183-193: the main sequential model.  The `Embedding` layer is
added only when the variation is not `CNN-static`; then dropout with
`dropout_prob[0]`, the graph subnet, `Dense(hidden_dims)`, dropout with
`dropout_prob[1]`, relu, `Dense(1)`, sigmoid. -/
def mainModelLayers (mv : String) (vocabSize embedding_dim sequence_length : Nat)
    (p1 p2 : ℚ) (hidden_dims : Nat) (g : GraphOut) : List MLayer :=
  (if mv = "CNN-static" then []
   else [MLayer.embedding vocabSize embedding_dim sequence_length]) ++
  [MLayer.dropout p1, MLayer.graphModel g, MLayer.dense hidden_dims,
   MLayer.dropout p2, MLayer.activation "relu", MLayer.dense 1,
   MLayer.activation "sigmoid"]

/-- Whether a main-model layer is the graph subnet. -/
def isGraphLayer : MLayer → Bool
  | MLayer.graphModel _ => true
  | _ => false

/-- Whether a main-model layer is a dropout layer. -/
def isDropoutLayer : MLayer → Bool
  | MLayer.dropout _ => true
  | _ => false

/-- Whether a main-model layer is an embedding layer. -/
def isEmbeddingLayer : MLayer → Bool
  | MLayer.embedding _ _ _ => true
  | _ => false

/-- The layers of the main model strictly after the graph subnet. -/
def afterGraph (L : List MLayer) : List MLayer :=
  (L.dropWhile (fun l => !isGraphLayer l)).tail

/-- The layers of the main model strictly before the graph subnet. -/
def beforeGraph (L : List MLayer) : List MLayer :=
  L.takeWhile (fun l => !isGraphLayer l)

/-- Whether the main model contains any embedding layer. -/
def hasEmbeddingLayer (L : List MLayer) : Bool :=
  L.any isEmbeddingLayer

/-- C1: In the training branch, the shuffle draws one permutation `idx` of
the indices `0..len(y)-1` and applies that identical permutation to both
`x` and `y`: for every position `i` there is a single original index `j`
(namely `idx[i]`) such that `x_shuffled[i]` is `x[j]` and `y_shuffled[i]`
is the argmax-collapsed label `y[j]`. -/
theorem shuffle_preserves_pairing (x : List α) (d : α) (y : List (List Nat))
    (idx : List Nat) (hperm : idx.Perm (List.range y.length))
    (i : Nat) (hi : i < y.length) :
    ∃ j, j < y.length ∧ idx[i]? = some j ∧
      (x_shuffled x d idx)[i]? = some (x.getD j d) ∧
      (y_shuffled y idx)[i]? = some (argmaxRow (y.getD j [])) := by
  have hlen : idx.length = y.length := by
    simpa using hperm.length_eq
  have hi' : i < idx.length := by omega
  refine ⟨idx[i], ?_, ?_, ?_, ?_⟩
  · have hmem : idx[i] ∈ idx := List.getElem_mem hi'
    have : idx[i] ∈ List.range y.length := hperm.mem_iff.mp hmem
    simpa using this
  · simp [List.getElem?_eq_getElem hi']
  · simp [x_shuffled, fancyIndex, List.getElem?_eq_getElem hi']
  · simp [y_shuffled, fancyIndex, List.map_map, List.getElem?_eq_getElem hi']

/-- Witness for C1 at a concrete shuffle: three examples, permutation
`[2, 0, 1]`, position 0. -/
theorem shuffle_preserves_pairing_witness :
    ([2, 0, 1] : List Nat).Perm (List.range 3) ∧ (0 : Nat) < 3 ∧
      (∃ j, j < ([[1, 0], [0, 1], [1, 0]] : List (List Nat)).length ∧
        ([2, 0, 1] : List Nat)[0]? = some j ∧
        (x_shuffled ["a", "b", "c"] "" [2, 0, 1])[0]? =
          some ((["a", "b", "c"] : List String).getD j "") ∧
        (y_shuffled [[1, 0], [0, 1], [1, 0]] [2, 0, 1])[0]? =
          some (argmaxRow (([[1, 0], [0, 1], [1, 0]] : List (List Nat)).getD j []))) :=
  ⟨by decide, by decide,
    shuffle_preserves_pairing ["a", "b", "c"] "" [[1, 0], [0, 1], [1, 0]]
      [2, 0, 1] (by decide) 0 (by decide)⟩

/-- C10: the training branch seeds the generator with the constant 2 before
shuffling, so two runs on the same loaded `(x, y)` — whatever generator
state each process had beforehand — draw the identical shuffle permutation
and produce identical shuffled data. -/
theorem seeded_shuffle_deterministic (perm : Nat → Nat → List Nat)
    (s1 s2 : Nat) (x : List α) (d : α) (y : List (List Nat)) :
    trainShuffleIndices perm s1 y = trainShuffleIndices perm s2 y ∧
      trainShuffle perm s1 x d y = trainShuffle perm s2 x d y :=
  ⟨rfl, rfl⟩

/-- C2: for every model-variation string other than `CNN-non-static`,
`CNN-static` and `CNN-rand`, the dispatch at lines 136-143 raises
`ValueError('Unknown model variation')` — it fails fast at the point the
variant string is interpreted and never produces a default configuration. -/
theorem unknown_variation_fails_fast (mv : String) (W : List Vec)
    (x : List (List Nat))
    (h1 : mv ≠ "CNN-non-static") (h2 : mv ≠ "CNN-static")
    (h3 : mv ≠ "CNN-rand") :
    variationDispatch mv W x = Except.error "Unknown model variation" := by
  simp [variationDispatch, h1, h2, h3]

/-- Witness for C2 at the concrete unknown string `"CNN-char"`. -/
theorem unknown_variation_fails_fast_witness :
    ("CNN-char" ≠ "CNN-non-static" ∧ "CNN-char" ≠ "CNN-static" ∧
        "CNN-char" ≠ "CNN-rand") ∧
      variationDispatch "CNN-char" [[1]] [[0]] =
        Except.error "Unknown model variation" :=
  ⟨by decide,
    unknown_variation_fails_fast "CNN-char" [[1]] [[0]]
      (by decide) (by decide) (by decide)⟩

/-- C3: whenever the loaded word-vector model contains the pad token
`<PAD/>`, the evaluation-time lookup of a token absent from the model
returns the pad token's vector, and the lookup of any token at all never
propagates an error to the caller. -/
theorem eval_lookup_falls_back (eb : String → Option Vec) (pv : Vec)
    (hpad : eb "<PAD/>" = some pv) :
    (∀ word, eb word = none → evalLookup eb word = Except.ok pv) ∧
      (∀ word e, evalLookup eb word ≠ Except.error e) := by
  constructor
  · intro word habs
    simp [evalLookup, habs, hpad]
  · intro word e
    cases hw : eb word with
    | some v => simp [evalLookup, hw]
    | none => simp [evalLookup, hw, hpad]

/-- Witness for C3 at a concrete two-word model containing only the pad
token, looked up at the unknown token `"zzz"`. -/
theorem eval_lookup_falls_back_witness :
    ((fun w => if w = "<PAD/>" then some ([3, 4] : Vec) else none) "<PAD/>"
        = some ([3, 4] : Vec)) ∧
      ((fun w => if w = "<PAD/>" then some ([3, 4] : Vec) else none) "zzz"
          = none →
        evalLookup (fun w => if w = "<PAD/>" then some ([3, 4] : Vec) else none)
          "zzz" = Except.ok ([3, 4] : Vec)) :=
  ⟨by decide,
    (eval_lookup_falls_back
      (fun w => if w = "<PAD/>" then some ([3, 4] : Vec) else none)
      [3, 4] (by decide)).1 "zzz"⟩

/-- C4: the assembler builds exactly one convolutional branch per configured
filter width; the branches are merged by concatenation exactly when more
than one filter width is configured, and with a single filter width the sole
branch's output is used directly with no merge. -/
theorem one_branch_per_width_merge_iff (nf : Nat) (fs : List Nat) :
    (buildBranches nf fs).length = fs.length ∧
      ((∃ bs, graphOutput nf fs = some (GraphOut.merged "concat" bs)) ↔
        1 < fs.length) ∧
      (∀ f, graphOutput nf [f] = some (GraphOut.single (convBranch nf f))) := by
  refine ⟨by simp [buildBranches], ⟨?_, ?_⟩, ?_⟩
  · rintro ⟨bs, hbs⟩
    by_contra hlen
    simp [graphOutput, hlen] at hbs
  · intro hlen
    exact ⟨buildBranches nf fs, by simp [graphOutput, hlen]⟩
  · intro f
    simp [graphOutput, buildBranches]

/-- Counterexample to C5 at the script's training configuration
(`filter_sizes = (3, 4)`, `num_filters = 150`, `hidden_dims = 150`,
`dropout_prob = (0.25, 0.5)`): the layer immediately after the graph subnet
is `Dense(150)`, not a dropout — the first dropout precedes the graph, so
the merged features do not pass through a dropout first. -/
theorem layer_after_graph_not_dropout :
    (afterGraph (mainModelLayers "CNN-non-static" 5000 100 56 (1/4) (1/2) 150
        (GraphOut.merged "concat" (buildBranches 150 [3, 4])))).head? =
      some (MLayer.dense 150) ∧
    isDropoutLayer ((afterGraph (mainModelLayers "CNN-non-static" 5000 100 56
        (1/4) (1/2) 150
        (GraphOut.merged "concat" (buildBranches 150 [3, 4])))).headD
        (MLayer.activation "x")) = false := by
  constructor <;> rfl

/-- C5 amended: each convolutional branch applies conv1D (relu) then
max pooling (window 2) then flatten, in order; a dropout with
`dropout_prob[0]` is applied to the embedded sequence immediately before the
graph subnet; and the merged features then pass through `Dense(hidden_dims)`,
dropout, relu, `Dense(1)`, sigmoid, in that order. -/
theorem model_layer_order (mv : String) (vs ed sl : Nat) (p1 p2 : ℚ)
    (hd nf : Nat) (fs : List Nat) (g : GraphOut) :
    (∀ b, b ∈ buildBranches nf fs → ∃ f, f ∈ fs ∧
      b = [GLayer.conv1D nf f "valid" "relu" 1, GLayer.maxPooling1D 2,
           GLayer.flattenL]) ∧
    (beforeGraph (mainModelLayers mv vs ed sl p1 p2 hd g)).getLast? =
      some (MLayer.dropout p1) ∧
    afterGraph (mainModelLayers mv vs ed sl p1 p2 hd g) =
      [MLayer.dense hd, MLayer.dropout p2, MLayer.activation "relu",
       MLayer.dense 1, MLayer.activation "sigmoid"] := by
  refine ⟨?_, ?_, ?_⟩
  · intro b hb
    simp only [buildBranches, List.mem_map] at hb
    obtain ⟨f, hf, rfl⟩ := hb
    exact ⟨f, hf, rfl⟩
  · by_cases hmv : mv = "CNN-static" <;>
      simp [beforeGraph, mainModelLayers, hmv, isGraphLayer]
  · by_cases hmv : mv = "CNN-static" <;>
      simp [afterGraph, mainModelLayers, hmv, isGraphLayer]

/-- Witness for the amended C5 at the script's configuration. -/
theorem model_layer_order_witness :
    (convBranch 150 3 ∈ buildBranches 150 [3, 4] ∧
      ∃ f, f ∈ ([3, 4] : List Nat) ∧
        convBranch 150 3 = [GLayer.conv1D 150 f "valid" "relu" 1,
          GLayer.maxPooling1D 2, GLayer.flattenL]) ∧
    afterGraph (mainModelLayers "CNN-non-static" 5000 100 56 (1/4) (1/2) 150
        (GraphOut.merged "concat" (buildBranches 150 [3, 4]))) =
      [MLayer.dense 150, MLayer.dropout (1/2), MLayer.activation "relu",
       MLayer.dense 1, MLayer.activation "sigmoid"] :=
  ⟨⟨by simp [buildBranches, convBranch],
    (model_layer_order "CNN-non-static" 5000 100 56 (1/4) (1/2) 150 150
        [3, 4] (GraphOut.merged "concat" (buildBranches 150 [3, 4]))).1
      (convBranch 150 3) (by simp [buildBranches, convBranch])⟩,
   (model_layer_order "CNN-non-static" 5000 100 56 (1/4) (1/2) 150 150
       [3, 4] (GraphOut.merged "concat" (buildBranches 150 [3, 4]))).2.2⟩

/-- C6: for the `CNN-static` variant the dispatch rewrites `x` by one
application of the embedding matrix (each token id `t` of each sentence is
replaced by row `t` of the matrix, once), and the assembled main model
contains no embedding layer at all; for every other variant the model's
first layer is the trainable embedding layer. -/
theorem static_variant_embedding (W : List Vec) (x : List (List Nat))
    (vs ed sl : Nat) (p1 p2 : ℚ) (hd : Nat) (g : GraphOut) :
    variationDispatch "CNN-static" W x =
      Except.ok ⟨some [W], XData.vecs (applyEmbedding W x)⟩ ∧
    hasEmbeddingLayer (mainModelLayers "CNN-static" vs ed sl p1 p2 hd g) =
      false ∧
    (∀ mv, mv ≠ "CNN-static" →
      (mainModelLayers mv vs ed sl p1 p2 hd g).head? =
        some (MLayer.embedding vs ed sl)) ∧
    (∀ i j, i < x.length → j < (x.getD i []).length →
      ((applyEmbedding W x).getD i []).getD j [] =
        W.getD ((x.getD i []).getD j 0) []) := by
  refine ⟨rfl, ?_, ?_, ?_⟩
  · simp [mainModelLayers, hasEmbeddingLayer, isEmbeddingLayer]
  · intro mv hmv
    simp [mainModelLayers, hmv]
  · intro i j hi hj
    have hxi : x.getD i [] = x[i] := List.getD_eq_getElem x [] hi
    have hi' : i < (applyEmbedding W x).length := by
      simpa [applyEmbedding] using hi
    rw [List.getD_eq_getElem _ _ hi']
    have hmap : (applyEmbedding W x)[i] =
        (x[i]).map (fun t => W.getD t []) := by
      simp [applyEmbedding]
    rw [hxi] at hj
    have hj' : j < ((x[i]).map (fun t => W.getD t [])).length := by
      simpa using hj
    rw [hmap, List.getD_eq_getElem _ _ hj', List.getElem_map, hxi,
      List.getD_eq_getElem _ _ hj]

/-- Witness for C6 at a concrete matrix, corpus, and configuration. -/
theorem static_variant_embedding_witness :
    variationDispatch "CNN-static" [[5], [7]] [[1, 0]] =
      Except.ok ⟨some [[[5], [7]]],
        XData.vecs (applyEmbedding [[5], [7]] [[1, 0]])⟩ ∧
    hasEmbeddingLayer (mainModelLayers "CNN-static" 2 1 2 (1/4) (1/2) 3
        (GraphOut.single (convBranch 1 2))) = false ∧
    ("CNN-rand" ≠ "CNN-static" ∧
      (mainModelLayers "CNN-rand" 2 1 2 (1/4) (1/2) 3
          (GraphOut.single (convBranch 1 2))).head? =
        some (MLayer.embedding 2 1 2)) ∧
    ((0 : Nat) < ([[1, 0]] : List (List Nat)).length ∧
      (0 : Nat) < (([[1, 0]] : List (List Nat)).getD 0 []).length ∧
      ((applyEmbedding [[5], [7]] [[1, 0]]).getD 0 []).getD 0 [] =
        ([[5], [7]] : List Vec).getD
          ((([[1, 0]] : List (List Nat)).getD 0 []).getD 0 0) []) :=
  ⟨(static_variant_embedding [[5], [7]] [[1, 0]] 2 1 2 (1/4) (1/2) 3
      (GraphOut.single (convBranch 1 2))).1,
   (static_variant_embedding [[5], [7]] [[1, 0]] 2 1 2 (1/4) (1/2) 3
      (GraphOut.single (convBranch 1 2))).2.1,
   ⟨by decide,
    (static_variant_embedding [[5], [7]] [[1, 0]] 2 1 2 (1/4) (1/2) 3
        (GraphOut.single (convBranch 1 2))).2.2.1 "CNN-rand" (by decide)⟩,
   ⟨by decide, by decide,
    (static_variant_embedding [[5], [7]] [[1, 0]] 2 1 2 (1/4) (1/2) 3
        (GraphOut.single (convBranch 1 2))).2.2.2 0 0 (by decide)
      (by decide)⟩⟩

/-- Line 197: the architecture file name,
`'imdb_' + model_variation + '7_arch.json'` — the `7` is a string literal,
not derived from `num_epochs`. -/
def archFileName (mv : String) : String :=
  "imdb_" ++ mv ++ "7_arch.json"

/-- Line 204: the weights file name,
`'imdb_' + model_variation + str(num_epochs) + '.h5'`. -/
def weightsFileName (mv : String) (num_epochs : Nat) : String :=
  "imdb_" ++ mv ++ toString num_epochs ++ ".h5"

/-- Modelled from the spec: the claimed architecture file name
`imdb_<variant><epochs>_arch.json`, derived from the model variant and the
epoch count.  Kept separate from `archFileName` for comparison. -/
def specArchFileName (mv : String) (num_epochs : Nat) : String :=
  "imdb_" ++ mv ++ toString num_epochs ++ "_arch.json"

/-- Modelled from the spec: the claimed weights file name
`imdb_<variant><epochs>.h5`. -/
def specWeightsFileName (mv : String) (num_epochs : Nat) : String :=
  "imdb_" ++ mv ++ toString num_epochs ++ ".h5"

/-- String concatenation is associative (helper for reasoning about the
pieced-together file names). -/
theorem strAppendAssoc (a b c : String) : a ++ b ++ c = a ++ (b ++ c) := by
  cases a with
  | mk la =>
    cases b with
    | mk lb =>
      cases c with
      | mk lc =>
        show String.mk (la ++ lb ++ lc) = String.mk (la ++ (lb ++ lc))
        rw [List.append_assoc]

/-- Counterexample to C7: with `num_epochs = 8` the code still writes the
architecture to `imdb_CNN-rand7_arch.json` — the literal `7` in line 197 is
not the epoch count — so the architecture name differs from the claimed
`imdb_<variant><epochs>_arch.json` and no longer matches the weights file
`imdb_CNN-rand8.h5`. -/
theorem arch_name_ignores_epochs :
    archFileName "CNN-rand" = "imdb_CNN-rand7_arch.json" ∧
      specArchFileName "CNN-rand" 8 = "imdb_CNN-rand8_arch.json" ∧
      archFileName "CNN-rand" ≠ specArchFileName "CNN-rand" 8 ∧
      weightsFileName "CNN-rand" 8 = "imdb_CNN-rand8.h5" := by
  refine ⟨rfl, rfl, ?_, rfl⟩
  decide

/-- C7 amended: the weights file is named `imdb_<variant><epochs>.h5` from
the variant and the configured epoch count, but the architecture file name
hardcodes the literal `7` (`imdb_<variant>7_arch.json`) for every epoch
count, so the pair is consistent only when the epoch budget is 7 (the
script's setting). -/
theorem artifact_names (mv : String) (num_epochs : Nat) :
    weightsFileName mv num_epochs = specWeightsFileName mv num_epochs ∧
      archFileName mv = specArchFileName mv 7 := by
  refine ⟨rfl, ?_⟩
  show "imdb_" ++ mv ++ "7_arch.json" =
    "imdb_" ++ mv ++ toString (7 : Nat) ++ "_arch.json"
  rw [show toString (7 : Nat) = "7" from rfl, strAppendAssoc _ "7",
    show ("7" ++ "_arch.json" : String) = "7_arch.json" from rfl]

/-- The observable side-effect events of the training branch (lines
134-205), in program order: load the data, dispatch on the variation,
shuffle, build the graph, compile the model, write the architecture JSON
(line 197), fit (line 201), write the weights (line 205). -/
inductive TrainEvent where
  | loadData
  | dispatchVariation
  | shuffleData
  | buildGraph
  | compileModel
  | saveArch
  | fit
  | saveWeights
  deriving DecidableEq

/-- The event trace of one execution of the training branch. -/
def trainingTrace : List TrainEvent :=
  [TrainEvent.loadData, TrainEvent.dispatchVariation, TrainEvent.shuffleData,
   TrainEvent.buildGraph, TrainEvent.compileModel, TrainEvent.saveArch,
   TrainEvent.fit, TrainEvent.saveWeights]

/-- Counterexample to C8: in the training branch's trace the architecture
file is written (line 197) before `model.fit` runs (line 201), so it is not
true that both artifacts are created only after training completes. -/
theorem arch_written_before_fit :
    trainingTrace.indexOf TrainEvent.saveArch <
        trainingTrace.indexOf TrainEvent.fit ∧
      ¬ (trainingTrace.indexOf TrainEvent.fit <
          trainingTrace.indexOf TrainEvent.saveArch) := by
  decide

/-- C8 amended: the weights file is created after `model.fit` completes, but
the architecture file is created after compilation and before `model.fit`;
each artifact is written exactly once in the run, so neither is mutated
after its write. -/
theorem artifact_write_order :
    trainingTrace.indexOf TrainEvent.saveArch <
        trainingTrace.indexOf TrainEvent.fit ∧
      trainingTrace.indexOf TrainEvent.fit <
        trainingTrace.indexOf TrainEvent.saveWeights ∧
      trainingTrace.count TrainEvent.saveArch = 1 ∧
      trainingTrace.count TrainEvent.saveWeights = 1 := by
  decide

/-- One Python statement, abstracted to the variable names it reads
(module-level or branch-local; builtins such as `print`, `open`, literals
and keyword arguments are omitted) and the names it binds. -/
structure PyStmt where
  reads : List String
  writes : List String
  deriving DecidableEq

/-- Run a statement list over an environment of defined names: a statement
whose reads include a name not in the environment stops execution with a
`NameError` carrying the statement's index and the first undefined name;
otherwise its writes are added and execution continues. -/
def runStmts : Nat → List String → List PyStmt →
    Except (Nat × String) (List String)
  | _, env, [] => Except.ok env
  | i, env, s :: rest =>
      match s.reads.find? (fun n => !env.contains n) with
      | some n => Except.error (i, n)
      | none => runStmts (i + 1) (env ++ s.writes) rest

/-- The names defined at module level before the `if training` statement:
the imported modules and symbols (lines 42-53), `classes` (line 55), the
three function definitions, `model_variation` (line 96), and `training`
(line 100). -/
def moduleGlobals : List String :=
  ["np", "data_helpers", "train_word2vec", "Sequential", "Model",
   "Activation", "Dense", "Dropout", "Embedding", "Flatten", "Input",
   "Merge", "Convolution1D", "MaxPooling1D", "model_from_json",
   "confusion_matrix", "plt", "metrics", "os", "word2vec", "classes",
   "plot_confusion_matrix", "show_confusion_matrix", "test_network",
   "model_variation", "training"]

/-- The statements of the evaluation branch (lines 212-282), in order, each
with the names it reads and the names it binds.  Commented-out lines are
omitted; the `for` loop (lines 250-255) is one statement reading
`sentence`, `eb` and `x`. -/
def evalBranchStmts : List PyStmt :=
  [⟨[], []⟩,                                                   -- line 212
   ⟨[], ["neg_test_path"]⟩,                                    -- line 213
   ⟨[], ["pos_test_path"]⟩,                                    -- line 214
   ⟨["data_helpers", "pos_test_path", "neg_test_path"],
    ["sentences", "labels"]⟩,                                  -- line 217
   ⟨[], ["embedding_dim"]⟩,                                    -- line 220
   ⟨[], ["filter_sizes"]⟩,                                     -- line 221
   ⟨[], ["num_filters"]⟩,                                      -- line 222
   ⟨[], ["dropout_prob"]⟩,                                     -- line 223
   ⟨[], ["hidden_dims"]⟩,                                      -- line 224
   ⟨[], ["min_word_count"]⟩,                                   -- line 227
   ⟨[], ["context"]⟩,                                          -- line 228
   ⟨[], ["model_dir"]⟩,                                        -- line 231
   ⟨["embedding_dim", "min_word_count", "context", "model_variation"],
    ["model_name"]⟩,                                           -- line 232
   ⟨["model_name"], []⟩,                                       -- line 234
   ⟨["os", "model_dir", "model_name"], ["model_name"]⟩,        -- line 235
   ⟨["word2vec", "model_name"], ["eb"]⟩,                       -- line 236
   ⟨[], []⟩,                                                   -- line 238
   ⟨["model_variation"], ["arch"]⟩,                            -- line 239
   ⟨["model_variation"], ["weights"]⟩,                         -- line 240
   ⟨["model_from_json", "arch"], ["model"]⟩,                   -- line 241
   ⟨["model", "weights"], []⟩,                                 -- line 242
   ⟨[], []⟩,                                                   -- line 244
   ⟨["model"], ["pad_size"]⟩,                                  -- line 245
   ⟨["data_helpers", "sentences", "pad_size"], ["sentences"]⟩, -- line 246
   ⟨[], ["x"]⟩,                                                -- line 248
   ⟨["sentences"], ["sentence"]⟩,                              -- line 249
   ⟨["sentence", "eb", "x"], ["word", "vect"]⟩,                -- lines 250-255
   ⟨["np", "x"], ["x"]⟩,                                       -- line 257
   ⟨["model", "x"], ["pred"]⟩,                                 -- line 258
   ⟨["pred"], []⟩,                                             -- line 259
   ⟨["y_shuffled", "test_num"], ["l"]⟩,                        -- line 278
   ⟨["confusion_matrix", "l", "pred"], []⟩,                    -- line 280
   ⟨["show_confusion_matrix", "l", "pred"], []⟩]               -- line 282

/-- C9: running the evaluation branch (`training == False`) stops with a
`NameError` on `y_shuffled` at the statement `l = y_shuffled[0:test_num]`
(line 278, statement index 30) — `y_shuffled` and `test_num` are bound only
in the training branch — and this is strictly before the confusion-matrix
statements at indices 31 and 32, so the confusion matrix is never computed. -/
theorem eval_branch_undefined_name :
    runStmts 0 moduleGlobals evalBranchStmts = Except.error (30, "y_shuffled") ∧
      (evalBranchStmts.getD 30 ⟨[], []⟩).reads = ["y_shuffled", "test_num"] ∧
      (evalBranchStmts.getD 31 ⟨[], []⟩).reads =
        ["confusion_matrix", "l", "pred"] ∧
      "y_shuffled" ∉ moduleGlobals ∧ "test_num" ∉ moduleGlobals := by
  refine ⟨rfl, rfl, rfl, by decide, by decide⟩

end TrainCNNIMDB
